import Mathlib

/-!
Verification of the AI-Code-Editor frontend (src/src/App.js).

The file embeds, as executable Lean definitions, the parts of the program
the claims are about:
  * the request-orchestration logic of `handleAction` and `handleClear`
    (session state transitions over code / loading / loadingMode / result /
    resultMode / error),
  * the visual encoders `getComplexityColor` and `getComplexityWidth`,
  * the markdown-lite formatter `formatExplanation` (the three regex
    replacement passes, paragraph splitting and line-break conversion).

Strings are handled through their character lists; JavaScript string
methods (`trim`, `includes`, `toLowerCase`, the regex replaces) are
translated into structural list functions.
-/

namespace AICodeEditor

/-! ## Basic string helpers (JS `trim`, `includes`, `toLowerCase`) -/

/-- JS whitespace relevant here: space, tab, carriage return, newline. -/
def isWS (c : Char) : Bool :=
  c = ' ' || c = '\t' || c = '\r' || c = '\n'

/-- `String.prototype.trim` on a character list. -/
def trimL (l : List Char) : List Char :=
  ((l.dropWhile isWS).reverse.dropWhile isWS).reverse

/-- Does `sub` occur as a prefix of `l`? -/
def startsL : List Char → List Char → Bool
  | [], _ => true
  | _ :: _, [] => false
  | a :: as, b :: bs => a == b && startsL as bs

/-- `String.prototype.includes`: does `sub` occur as a contiguous substring? -/
def includesL (sub : List Char) : List Char → Bool
  | [] => sub.isEmpty
  | b :: bs => startsL sub (b :: bs) || includesL sub bs

/-- `String.prototype.toLowerCase` (ASCII case folding, as `Char.toLower`). -/
def lowerL (l : List Char) : List Char :=
  l.map Char.toLower

/-! ## Data model

`ResultData` models the `data` object carried by a service response: every
field the renderer ever reads, each optional because the body is untyped
JSON.  `ParsedBody` is a successfully parsed response envelope
`{success, data?, mode?, error?}`. -/

structure ResultData where
  summary : Option String
  rating : Option Int
  timeComplexity : Option String
  spaceComplexity : Option String
  fixedCode : Option String
  optimizedCode : Option String
  explanation : Option String
deriving DecidableEq

structure ParsedBody where
  success : Bool
  data : Option ResultData
  mode : Option String
  error : Option String
deriving DecidableEq

/-- The body of an HTTP response: either `response.json()` rejects with a
parse-error message (`malformed`), or it resolves to a parsed envelope. -/
inductive Body where
  | malformed (msg : String)
  | json (b : ParsedBody)
deriving DecidableEq

/-- Outcome of the `fetch` call itself: the transport layer throws, or an
HTTP response arrives with `response.ok` status flag and a body. -/
inductive ServiceResponse where
  | transportError (msg : String)
  | httpResponse (ok : Bool) (body : Body)
deriving DecidableEq

/-- The React component state: `code`, `language`, `loading`, `loadingMode`
(the spec's `activeMode`), `result`, `resultMode`, `error`. -/
structure SessionState where
  code : String
  language : String
  loading : Bool
  loadingMode : Option String
  result : Option ResultData
  resultMode : Option String
  error : Option String
deriving DecidableEq

/-- The `useState` initial values. -/
def initialState : SessionState :=
  { code := ""
    language := "javascript"
    loading := false
    loadingMode := none
    result := none
    resultMode := none
    error := none }

/-- JS `x || dflt` on an optional string field: `undefined`, `null` and the
empty string are falsy and select the default. -/
def jsOrStr (v : Option String) (dflt : String) : String :=
  match v with
  | none => dflt
  | some s => if s = "" then dflt else s

/-- Result of one `handleAction` invocation: the new session state plus
whether a network request was issued. -/
structure RunResult where
  state : SessionState
  networkCall : Bool
deriving DecidableEq

/-- `handleAction(mode)` from App.js, with the service's behaviour for the
single outbound request passed in as `svc`.

```
if (!code.trim()) { setError('Please enter some code'); return; }
setLoading(true); setLoadingMode(mode);
setError(null); setResult(null); setResultMode(null);
try {
  const response = await fetch(...);
  const data = await response.json();
  if (!response.ok) throw new Error(data.error || 'Failed to process code');
  if (data.success) { setResult(data.data); setResultMode(data.mode); }
  else throw new Error(data.error || 'Processing failed');
} catch (err) { setError(err.message); }
finally { setLoading(false); setLoadingMode(null); }
```
Note `response.json()` runs before the `response.ok` test, so a malformed
body throws the parse error regardless of status, and `setResultMode` uses
the response body's `mode` field, not the `mode` argument. -/
def handleAction (s : SessionState) (mode : String) (svc : ServiceResponse) : RunResult :=
  if (trimL s.code.data).isEmpty then
    { state := { s with error := some "Please enter some code" }, networkCall := false }
  else
    let s₁ : SessionState :=
      { s with loading := true, loadingMode := some mode,
               error := none, result := none, resultMode := none }
    let s₂ : SessionState :=
      match svc with
      | .transportError msg => { s₁ with error := some msg }
      | .httpResponse ok body =>
          match body with
          | .malformed msg => { s₁ with error := some msg }
          | .json b =>
              if ok = false then
                { s₁ with error := some (jsOrStr b.error "Failed to process code") }
              else if b.success then
                { s₁ with result := b.data, resultMode := b.mode }
              else
                { s₁ with error := some (jsOrStr b.error "Processing failed") }
    { state := { s₂ with loading := false, loadingMode := none }, networkCall := true }

/-- `handleClear` from App.js: resets code, result, resultMode and error;
`language`, `loading` and `loadingMode` are untouched. -/
def handleClear (s : SessionState) : SessionState :=
  { s with code := "", result := none, resultMode := none, error := none }

/-- The user/session events that drive the state: editing the textarea,
picking a language, pressing a mode button (with the service's response for
that request), and pressing Clear. -/
inductive Action where
  | setCode (c : String)
  | setLanguage (l : String)
  | run (mode : String) (svc : ServiceResponse)
  | clear

/-- One step of the session-state machine. -/
def step (s : SessionState) : Action → SessionState
  | .setCode c => { s with code := c }
  | .setLanguage l => { s with language := l }
  | .run mode svc => (handleAction s mode svc).state
  | .clear => handleClear s

/-- The state reached from the initial state by a sequence of actions. -/
def reach (acts : List Action) : SessionState :=
  acts.foldl step initialState

/-! ## Visual encoder: `getComplexityColor` and `getComplexityWidth`

Both take the raw complexity string (or `none` for a null/undefined field),
lowercase it, and run a chain of `includes` substring tests.  The JS falsy
test `if (!complexity)` also catches the empty string. -/

def getComplexityColor (complexity : Option String) : String :=
  match complexity with
  | none => "#666"
  | some s =>
    if s = "" then "#666"
    else
      let comp := lowerL s.data
      if includesL "o(1)".data comp then "#4caf50"
      else if includesL "o(log n)".data comp || includesL "o(n)".data comp then "#8bc34a"
      else if includesL "o(n log n)".data comp then "#ffc107"
      else if includesL "o(n²)".data comp || includesL "o(n^2)".data comp then "#ff9800"
      else if includesL "o(2^n)".data comp || includesL "o(n!)".data comp then "#f44336"
      else "#666"

def getComplexityWidth (complexity : Option String) : String :=
  match complexity with
  | none => "50%"
  | some s =>
    if s = "" then "50%"
    else
      let comp := lowerL s.data
      if includesL "o(1)".data comp then "10%"
      else if includesL "o(log n)".data comp then "20%"
      else if includesL "o(n)".data comp then "30%"
      else if includesL "o(n log n)".data comp then "50%"
      else if includesL "o(n²)".data comp || includesL "o(n^2)".data comp then "70%"
      else if includesL "o(2^n)".data comp || includesL "o(n!)".data comp then "90%"
      else "50%"

/-- Numeric value of a percentage string such as "50%": its leading digits. -/
def digitsVal : List Char → Nat → Nat
  | [], acc => acc
  | c :: rest, acc =>
      if c.isDigit then digitsVal rest (acc * 10 + (c.toNat - 48)) else acc

/-- Numeric percent of a width string, for the monotonicity statement. -/
def percentOf (s : String) : Nat :=
  digitsVal s.data 0

/-! ## Text formatter: `formatExplanation`

The pipeline is, in source order:
1. `.replace(/\*\*(.*?)\*\*/g, strong-tags)` — `boldGo`;
2. `.replace` of the italic regex with negative lookarounds — `italGo`;
3. `.replace` of backtick inline-code spans — `tickGo`;
4. `.split(/\n\n+/)` — `splitGo`;
5. `.map(trim).filter(nonempty).map(wrap in p-tags with newline-to-br)`.

The regex passes are modelled by scanning functions that mirror the JS
left-to-right global-replace semantics: `.` never matches a newline (bold,
italic), lazy groups take the shortest closing match, and lookarounds read
the original neighbouring characters.  Each scanner carries a fuel argument
(initialised to the list length, which each step's one-or-more consumed
characters keep sufficient) so it stays structurally recursive. -/

/-- Is the head of the list the character `x`? -/
def headIs (x : Char) : List Char → Bool
  | [] => false
  | c :: _ => c == x

/-- The backtick character, U+0060, written by code point. -/
def btick : Char := Char.ofNat 96

/-- Find the lazy closing `**` of a bold span: the shortest run of
non-newline characters followed by `**`.  Returns the captured content and
the remainder after the closing delimiter. -/
def findBoldClose : List Char → Option (List Char × List Char)
  | [] => none
  | c :: rest =>
      if c == '*' && headIs '*' rest then some ([], rest.tail)
      else if c = '\n' then none
      else (findBoldClose rest).map (fun p => (c :: p.1, p.2))

/-- Find the lazy closing `*` of an italic span: a closing asterisk must
not be preceded (`prev`) or followed by another asterisk; content
characters are non-newline. -/
def findItalClose (prev : Char) : List Char → Option (List Char × List Char)
  | [] => none
  | c :: rest =>
      if c == '*' && prev != '*' && !(headIs '*' rest) then some ([], rest)
      else if c = '\n' then none
      else (findItalClose c rest).map (fun p => (c :: p.1, p.2))

/-- Find the closing backtick of an inline-code span; `[^`]` admits any
character but a backtick, newlines included. -/
def findTickClose : List Char → Option (List Char × List Char)
  | [] => none
  | c :: rest =>
      if c == btick then some ([], rest)
      else (findTickClose rest).map (fun p => (c :: p.1, p.2))

/-- Global replace of `/\*\*(.*?)\*\*/g` by strong tags. -/
def boldGo : Nat → List Char → List Char
  | 0, l => l
  | _ + 1, [] => []
  | fuel + 1, c :: rest =>
      if c == '*' && headIs '*' rest then
        match findBoldClose rest.tail with
        | some (content, rest') =>
            "<strong>".data ++ content ++ "</strong>".data ++ boldGo fuel rest'
        | none => '*' :: '*' :: boldGo fuel rest.tail
      else c :: boldGo fuel rest

/-- Global replace of the italic regex by em tags; `prev` is the character
preceding the scan position in the original string (for the lookbehind). -/
def italGo : Nat → Option Char → List Char → List Char
  | 0, _, l => l
  | _ + 1, _, [] => []
  | fuel + 1, prev, c :: rest =>
      if c == '*' && prev != some '*' && !(headIs '*' rest) then
        match findItalClose '*' rest with
        | some (content, rest') =>
            "<em>".data ++ content ++ "</em>".data ++ italGo fuel (some '*') rest'
        | none => c :: italGo fuel (some c) rest
      else c :: italGo fuel (some c) rest

/-- Global replace of inline-code spans by code tags; the one-or-more
quantifier means an empty span does not match. -/
def tickGo : Nat → List Char → List Char
  | 0, l => l
  | _ + 1, [] => []
  | fuel + 1, c :: rest =>
      if c == btick then
        match findTickClose rest with
        | some (c0 :: cs, rest') =>
            "<code class=\"inline-code\">".data ++ (c0 :: cs) ++ "</code>".data ++ tickGo fuel rest'
        | _ => btick :: tickGo fuel rest
      else c :: tickGo fuel rest

/-- Drop a run of leading newlines (the greedy tail of a `\n\n+` match). -/
def dropNl : List Char → List Char
  | [] => []
  | c :: rest => if c = '\n' then dropNl rest else c :: rest

/-- `split(/\n\n+/)`: cut at each maximal run of two or more newlines. -/
def splitGo : Nat → List Char → List Char → List (List Char)
  | 0, cur, l => [cur.reverse ++ l]
  | _ + 1, cur, [] => [cur.reverse]
  | fuel + 1, cur, c :: rest =>
      if c = '\n' && headIs '\n' rest then
        cur.reverse :: splitGo fuel [] (dropNl rest.tail)
      else splitGo fuel (c :: cur) rest

/-- `para.replace(/\n/g, '<br>')`. -/
def nlToBr : List Char → List Char
  | [] => []
  | c :: rest => if c = '\n' then "<br>".data ++ nlToBr rest else c :: nlToBr rest

/-- `formatExplanation(text)` from App.js; `none` models a null/undefined
argument, and the falsy test also returns the empty string unchanged. -/
def formatExplanation (text : Option String) : String :=
  match text with
  | none => ""
  | some s =>
    if s = "" then ""
    else
      let l₁ := boldGo s.data.length s.data
      let l₂ := italGo l₁.length none l₁
      let l₃ := tickGo l₂.length l₂
      let paras := splitGo l₃.length [] l₃
      let kept := (paras.map trimL).filter (fun p => p.length != 0)
      let wrapped := kept.map (fun p => "<p>".data ++ nlToBr p ++ "</p>".data)
      ⟨wrapped.flatten⟩

/-! ## Concrete fixtures used by several theorems -/

/-- A review-shaped payload; note it carries no fixedCode / optimizedCode /
explanation fields. -/
def sampleData : ResultData :=
  { summary := some "ok"
    rating := some 8
    timeComplexity := none
    spaceComplexity := none
    fixedCode := none
    optimizedCode := none
    explanation := none }

/-- An idle state in which the user has typed some code. -/
def typedState : SessionState :=
  { initialState with code := "x=1" }

/-- An idle state whose textarea holds only whitespace. -/
def wsState : SessionState :=
  { initialState with code := "   " }

/-- A well-formed success envelope for a review request. -/
def okReviewBody : ParsedBody :=
  { success := true, data := some sampleData, mode := some "review", error := none }

/-! ## Claims C1 - C6: the request orchestrator -/

/-- C5: for every input whose code is empty after trimming, run performs no
network call, sets `error` to exactly "Please enter some code", and leaves
`loading` and `loadingMode` (the spec's `activeMode`) unchanged. -/
theorem C5_empty_code_guard (s : SessionState) (mode : String) (svc : ServiceResponse)
    (h : (trimL s.code.data).isEmpty = true) :
    (handleAction s mode svc).networkCall = false ∧
    (handleAction s mode svc).state.error = some "Please enter some code" ∧
    (handleAction s mode svc).state.loading = s.loading ∧
    (handleAction s mode svc).state.loadingMode = s.loadingMode := by
  simp [handleAction, h]

/-- C5 witness: the guard fires on a whitespace-only textarea in the idle
state, so `loading` stays false. -/
theorem C5_empty_code_guard_witness :
    (handleAction wsState "review" (.transportError "boom")).networkCall = false ∧
    (handleAction wsState "review" (.transportError "boom")).state.error =
      some "Please enter some code" ∧
    (handleAction wsState "review" (.transportError "boom")).state.loading = wsState.loading ∧
    (handleAction wsState "review" (.transportError "boom")).state.loadingMode =
      wsState.loadingMode :=
  C5_empty_code_guard wsState "review" (.transportError "boom") (by decide)

/-- C6: for every accepted run (non-empty trimmed code), on every completion
path — 2xx success, 2xx failure envelope, non-2xx status, unparseable body,
and a transport exception — the run ends with `loading` = false and
`loadingMode` = null (the `finally` block). -/
theorem C6_finally_resets (s : SessionState) (mode : String) (svc : ServiceResponse)
    (h : (trimL s.code.data).isEmpty = false) :
    (handleAction s mode svc).state.loading = false ∧
    (handleAction s mode svc).state.loadingMode = none := by
  rcases svc with msg | ⟨ok, body⟩
  · simp [handleAction, h]
  · rcases body with msg | b
    · simp [handleAction, h]
    · by_cases hok : ok = false
      · simp [handleAction, h, hok]
      · by_cases hs : b.success <;> simp [handleAction, h, hok, hs]

/-- C6 witness: an accepted run that ends in a transport exception still
resets `loading` and `loadingMode`. -/
theorem C6_finally_resets_witness :
    (handleAction typedState "fix" (.transportError "network down")).state.loading = false ∧
    (handleAction typedState "fix" (.transportError "network down")).state.loadingMode = none :=
  C6_finally_resets typedState "fix" (.transportError "network down") (by decide)

/-- C1 counterexample: run a review to completion (holding a result), edit
the code to whitespace, then press a mode button again: the rejection path
sets `error` without clearing `result`, so both are non-null at once. -/
theorem C1_counterexample :
    (reach [.setCode "x=1", .run "review" (.httpResponse true (.json okReviewBody)),
            .setCode "   ", .run "review" (.httpResponse true (.json okReviewBody))]).result
      ≠ none ∧
    (reach [.setCode "x=1", .run "review" (.httpResponse true (.json okReviewBody)),
            .setCode "   ", .run "review" (.httpResponse true (.json okReviewBody))]).error
      ≠ none := by
  decide

/-- C1 (amended): every accepted run and every clear action re-establishes
the exclusivity — after them at most one of `result` and `error` is
non-null; only the empty-code rejection path can leave both set, because it
writes `error` while retaining a previously held `result`. -/
theorem C1_result_error_exclusive_amended :
    (∀ (s : SessionState) (mode : String) (svc : ServiceResponse),
        (trimL s.code.data).isEmpty = false →
        (handleAction s mode svc).state.result = none ∨
        (handleAction s mode svc).state.error = none) ∧
    (∀ s : SessionState, (handleClear s).result = none ∧ (handleClear s).error = none) := by
  constructor
  · intro s mode svc h
    rcases svc with msg | ⟨ok, body⟩
    · left; simp [handleAction, h]
    · rcases body with msg | b
      · left; simp [handleAction, h]
      · by_cases hok : ok = false
        · left; simp [handleAction, h, hok]
        · by_cases hs : b.success
          · right; simp [handleAction, h, hok, hs]
          · left; simp [handleAction, h, hok, hs]
  · intro s
    exact ⟨rfl, rfl⟩

/-- C1 witness: a concrete accepted run satisfies the exclusivity. -/
theorem C1_result_error_exclusive_witness :
    (handleAction typedState "review" (.transportError "down")).state.result = none ∨
    (handleAction typedState "review" (.transportError "down")).state.error = none :=
  C1_result_error_exclusive_amended.1 typedState "review" (.transportError "down") (by decide)

/-- C2 counterexample: a non-2xx response whose body is not parseable JSON
makes `response.json()` reject before the status test, so the catch block
stores the parse exception's message, not "Failed to process code". -/
theorem C2_counterexample :
    (handleAction typedState "review"
        (.httpResponse false (.malformed "Unexpected end of JSON input"))).state.error =
      some "Unexpected end of JSON input" ∧
    (handleAction typedState "review"
        (.httpResponse false (.malformed "Unexpected end of JSON input"))).state.error ≠
      some "Failed to process code" ∧
    (handleAction typedState "review"
        (.httpResponse false (.malformed "Unexpected end of JSON input"))).state.result =
      none := by
  decide

/-- C2 (amended): on a non-2xx response, the generic fallback "Failed to
process code" is stored (with `result` = null) when the body is parseable
JSON whose `error` field is absent or empty; when the body is unparseable,
`error` is instead the JSON parse exception's message (`result` = null). -/
theorem C2_error_fallback_amended (s : SessionState) (mode : String) (b : ParsedBody)
    (msg : String) (h : (trimL s.code.data).isEmpty = false)
    (he : b.error = none ∨ b.error = some "") :
    ((handleAction s mode (.httpResponse false (.json b))).state.error =
        some "Failed to process code" ∧
      (handleAction s mode (.httpResponse false (.json b))).state.result = none) ∧
    ((handleAction s mode (.httpResponse false (.malformed msg))).state.error = some msg ∧
      (handleAction s mode (.httpResponse false (.malformed msg))).state.result = none) := by
  refine ⟨⟨?_, by simp [handleAction, h]⟩, by simp [handleAction, h], by simp [handleAction, h]⟩
  rcases he with he | he <;> simp [handleAction, h, jsOrStr, he]

/-- C2 witness: concrete instances of both fallback paths. -/
theorem C2_error_fallback_witness :
    ((handleAction typedState "review"
          (.httpResponse false (.json ⟨false, none, none, none⟩))).state.error =
        some "Failed to process code" ∧
      (handleAction typedState "review"
          (.httpResponse false (.json ⟨false, none, none, none⟩))).state.result = none) ∧
    ((handleAction typedState "review"
          (.httpResponse false (.malformed "bad json"))).state.error = some "bad json" ∧
      (handleAction typedState "review"
          (.httpResponse false (.malformed "bad json"))).state.result = none) :=
  C2_error_fallback_amended typedState "review" ⟨false, none, none, none⟩ "bad json"
    (by decide) (Or.inl rfl)

/-- C3 counterexample: a 2xx success whose body carries no `mode` field
leaves `resultMode` null while `result` is non-null — `setResultMode` uses
the body's `mode`, not the request's mode argument. -/
theorem C3_counterexample :
    (handleAction typedState "review"
        (.httpResponse true (.json ⟨true, some sampleData, none, none⟩))).state.result ≠ none ∧
    (handleAction typedState "review"
        (.httpResponse true (.json ⟨true, some sampleData, none, none⟩))).state.resultMode =
      none := by
  decide

/-- C3 (amended): on every accepted 2xx run with `success: true`, the run
stores the body's `data` as `result` and the body's `mode` field as
`resultMode` — which can be null or differ from the request's mode. -/
theorem C3_resultMode_from_body_amended (s : SessionState) (mode : String) (b : ParsedBody)
    (h : (trimL s.code.data).isEmpty = false) (hb : b.success = true) :
    (handleAction s mode (.httpResponse true (.json b))).state.result = b.data ∧
    (handleAction s mode (.httpResponse true (.json b))).state.resultMode = b.mode := by
  simp [handleAction, h, hb]

/-- C3 witness: a concrete success run stores the body's data and mode. -/
theorem C3_resultMode_from_body_witness :
    (handleAction typedState "review"
        (.httpResponse true (.json okReviewBody))).state.result = okReviewBody.data ∧
    (handleAction typedState "review"
        (.httpResponse true (.json okReviewBody))).state.resultMode = okReviewBody.mode :=
  C3_resultMode_from_body_amended typedState "review" okReviewBody (by decide) rfl

/-- C4 counterexample: a 2xx `success: true` response for mode "fix" whose
data lacks `fixedCode` is stored unvalidated as `result`, with no error —
there is no response normalizer in the code. -/
theorem C4_counterexample :
    sampleData.fixedCode = none ∧
    (handleAction typedState "fix"
        (.httpResponse true
          (.json ⟨true, some sampleData, some "fix", none⟩))).state.result =
      some sampleData ∧
    (handleAction typedState "fix"
        (.httpResponse true
          (.json ⟨true, some sampleData, some "fix", none⟩))).state.error = none := by
  decide

/-- C4 (amended): every accepted 2xx run with `success: true` ends with
`error` = null and `result` equal to the body's `data` verbatim, with no
shape validation for the declared mode; a missing required field is only
reflected later, by the renderer showing nothing for the absent field. -/
theorem C4_no_validation_amended (s : SessionState) (mode : String) (b : ParsedBody)
    (h : (trimL s.code.data).isEmpty = false) (hb : b.success = true) :
    (handleAction s mode (.httpResponse true (.json b))).state.error = none ∧
    (handleAction s mode (.httpResponse true (.json b))).state.result = b.data := by
  simp [handleAction, h, hb]

/-- C4 witness: a concrete fix-mode success with missing `fixedCode` is
accepted without error. -/
theorem C4_no_validation_witness :
    (handleAction typedState "optimize"
        (.httpResponse true
          (.json ⟨true, some sampleData, some "optimize", none⟩))).state.error = none ∧
    (handleAction typedState "optimize"
        (.httpResponse true
          (.json ⟨true, some sampleData, some "optimize", none⟩))).state.result =
      some sampleData :=
  C4_no_validation_amended typedState "optimize" ⟨true, some sampleData, some "optimize", none⟩
    (by decide) rfl

/-! ## Claims C7 - C8: the visual encoder -/

/-- C7 counterexample: the light-green rule is a substring test, not an
exact-equality test — "x O(n) x" is not exactly "o(n)" (case-insensitively)
and does not contain "o(log n)", yet colorOf maps it to light-green. -/
theorem C7_counterexample :
    getComplexityColor (some "x O(n) x") = "#8bc34a" ∧
    includesL "o(log n)".data (lowerL "x O(n) x".data) = false ∧
    lowerL "x O(n) x".data ≠ "o(n)".data := by
  decide

/-- C7 (amended): colorOf is a total function over strings and null — it
always returns one of the six colors and never throws; null and the empty
string map to neutral gray, inputs containing "o(1)" (case-insensitive) map
to green, and inputs containing "o(log n)" or containing "o(n)" (substring
containment, not exact equality) map to light-green when no earlier rule
fired; then "o(n log n)" to yellow, "o(n²)"/"o(n^2)" to orange,
"o(2^n)"/"o(n!)" to red, and anything else to neutral gray. -/
theorem C7_colorOf_total_amended (c : Option String) :
    getComplexityColor c ∈ ["#4caf50", "#8bc34a", "#ffc107", "#ff9800", "#f44336", "#666"] ∧
    (c = none → getComplexityColor c = "#666") ∧
    (c = some "" → getComplexityColor c = "#666") ∧
    (∀ s, c = some s → s ≠ "" →
      (includesL "o(1)".data (lowerL s.data) = true →
        getComplexityColor c = "#4caf50") ∧
      (includesL "o(1)".data (lowerL s.data) = false →
        (includesL "o(log n)".data (lowerL s.data) ||
          includesL "o(n)".data (lowerL s.data)) = true →
        getComplexityColor c = "#8bc34a") ∧
      (includesL "o(1)".data (lowerL s.data) = false →
        (includesL "o(log n)".data (lowerL s.data) ||
          includesL "o(n)".data (lowerL s.data)) = false →
        includesL "o(n log n)".data (lowerL s.data) = true →
        getComplexityColor c = "#ffc107") ∧
      (includesL "o(1)".data (lowerL s.data) = false →
        (includesL "o(log n)".data (lowerL s.data) ||
          includesL "o(n)".data (lowerL s.data)) = false →
        includesL "o(n log n)".data (lowerL s.data) = false →
        (includesL "o(n²)".data (lowerL s.data) ||
          includesL "o(n^2)".data (lowerL s.data)) = true →
        getComplexityColor c = "#ff9800") ∧
      (includesL "o(1)".data (lowerL s.data) = false →
        (includesL "o(log n)".data (lowerL s.data) ||
          includesL "o(n)".data (lowerL s.data)) = false →
        includesL "o(n log n)".data (lowerL s.data) = false →
        (includesL "o(n²)".data (lowerL s.data) ||
          includesL "o(n^2)".data (lowerL s.data)) = false →
        (includesL "o(2^n)".data (lowerL s.data) ||
          includesL "o(n!)".data (lowerL s.data)) = true →
        getComplexityColor c = "#f44336") ∧
      (includesL "o(1)".data (lowerL s.data) = false →
        (includesL "o(log n)".data (lowerL s.data) ||
          includesL "o(n)".data (lowerL s.data)) = false →
        includesL "o(n log n)".data (lowerL s.data) = false →
        (includesL "o(n²)".data (lowerL s.data) ||
          includesL "o(n^2)".data (lowerL s.data)) = false →
        (includesL "o(2^n)".data (lowerL s.data) ||
          includesL "o(n!)".data (lowerL s.data)) = false →
        getComplexityColor c = "#666")) := by
  rcases c with _ | s
  · exact ⟨by decide, fun _ => rfl, nofun, fun s h => absurd h nofun⟩
  · by_cases hs : s = ""
    · subst hs
      refine ⟨by decide, nofun, fun _ => rfl, ?_⟩
      intro s' h hne
      injection h with h'
      exact absurd h'.symm hne
    · have hmem : getComplexityColor (some s) ∈
          ["#4caf50", "#8bc34a", "#ffc107", "#ff9800", "#f44336", "#666"] := by
        simp only [getComplexityColor, if_neg hs]
        split_ifs <;> simp
      refine ⟨hmem, nofun, fun h => by injection h with h'; exact absurd h' hs, ?_⟩
      intro s' h hne
      injection h with h'
      subst h'
      refine ⟨fun h1 => ?_, fun h1 h2 => ?_, fun h1 h2 h3 => ?_,
              fun h1 h2 h3 h4 => ?_, fun h1 h2 h3 h4 h5 => ?_,
              fun h1 h2 h3 h4 h5 => ?_⟩ <;>
        simp [getComplexityColor, hs, h1, *]

/-- C7 witness: concrete applications of the amended rules, including a
longer string containing "o(n)" mapping to light-green. -/
theorem C7_colorOf_total_witness :
    getComplexityColor (some "O(1)") ∈
      ["#4caf50", "#8bc34a", "#ffc107", "#ff9800", "#f44336", "#666"] ∧
    getComplexityColor (some "roughly O(n) overall") = "#8bc34a" :=
  ⟨(C7_colorOf_total_amended (some "O(1)")).1,
    ((C7_colorOf_total_amended (some "roughly O(n) overall")).2.2.2
        "roughly O(n) overall" rfl (by decide)).2.1 (by decide) (by decide)⟩

/-- C8: widthOf maps the complexity classes to the fixed table 10% (O(1)),
20% (O(log n)), 30% (O(n)), 50% (O(n log n)), 70% (O(n²)/O(n^2)),
90% (O(2^n)/O(n!)), with 50% for null and unrecognized inputs, and the
returned widths are monotonically non-decreasing across the ordered
classes O(1) < O(log n) < O(n) < O(n log n) < O(n²) < O(2^n). -/
theorem C8_width_table_monotone :
    getComplexityWidth (some "O(1)") = "10%" ∧
    getComplexityWidth (some "O(log n)") = "20%" ∧
    getComplexityWidth (some "O(n)") = "30%" ∧
    getComplexityWidth (some "O(n log n)") = "50%" ∧
    getComplexityWidth (some "O(n²)") = "70%" ∧
    getComplexityWidth (some "O(n^2)") = "70%" ∧
    getComplexityWidth (some "O(2^n)") = "90%" ∧
    getComplexityWidth (some "O(n!)") = "90%" ∧
    getComplexityWidth none = "50%" ∧
    getComplexityWidth (some "O(?)") = "50%" ∧
    percentOf (getComplexityWidth (some "O(1)")) ≤
      percentOf (getComplexityWidth (some "O(log n)")) ∧
    percentOf (getComplexityWidth (some "O(log n)")) ≤
      percentOf (getComplexityWidth (some "O(n)")) ∧
    percentOf (getComplexityWidth (some "O(n)")) ≤
      percentOf (getComplexityWidth (some "O(n log n)")) ∧
    percentOf (getComplexityWidth (some "O(n log n)")) ≤
      percentOf (getComplexityWidth (some "O(n²)")) ∧
    percentOf (getComplexityWidth (some "O(n²)")) ≤
      percentOf (getComplexityWidth (some "O(2^n)")) := by
  decide

/-! ## Claims C9 - C10: the text formatter -/

/-- C9: `formatExplanation("**a** and *b* and (backtick)c(backtick)")`
produces exactly one paragraph fragment containing a bold span "a", an
italic span "b" and a code span "c" in that left-to-right order; a text
with a blank-line boundary produces two distinct paragraph fragments; and
the empty string and null both produce the empty result. -/
theorem C9_formatter_round_trip :
    formatExplanation (some "**a** and *b* and `c`") =
      "<p><strong>a</strong> and <em>b</em> and <code class=\"inline-code\">c</code></p>" ∧
    formatExplanation (some "p1\n\np2") = "<p>p1</p><p>p2</p>" ∧
    formatExplanation (some "") = "" ∧
    formatExplanation none = "" :=
  ⟨rfl, rfl, rfl, rfl⟩

/-- Helper: a bold-span match never captures a newline — the lazy group is
built from `.`, which does not match a line break. -/
theorem findBoldClose_no_newline (l : List Char) :
    ∀ content rest, findBoldClose l = some (content, rest) → '\n' ∉ content := by
  induction l with
  | nil =>
      intro content rest h
      simp [findBoldClose] at h
  | cons c t ih =>
      intro content rest h
      simp only [findBoldClose] at h
      split_ifs at h with h1 h2
      · simp only [Option.some.injEq, Prod.mk.injEq] at h
        rw [← h.1]
        simp
      · simp only [Option.map_eq_some', Prod.mk.injEq] at h
        obtain ⟨a, hfc, hca, hr⟩ := h
        rw [← hca]
        intro hmem
        rcases List.mem_cons.mp hmem with hc | hc
        · exact h2 hc.symm
        · exact ih a.1 a.2 hfc hc

/-- Helper: an italic-span match never captures a newline. -/
theorem findItalClose_no_newline (l : List Char) :
    ∀ prev content rest, findItalClose prev l = some (content, rest) → '\n' ∉ content := by
  induction l with
  | nil =>
      intro prev content rest h
      simp [findItalClose] at h
  | cons c t ih =>
      intro prev content rest h
      simp only [findItalClose] at h
      split_ifs at h with h1 h2
      · simp only [Option.some.injEq, Prod.mk.injEq] at h
        rw [← h.1]
        simp
      · simp only [Option.map_eq_some', Prod.mk.injEq] at h
        obtain ⟨a, hfc, hca, hr⟩ := h
        rw [← hca]
        intro hmem
        rcases List.mem_cons.mp hmem with hc | hc
        · exact h2 hc.symm
        · exact ih c a.1 a.2 hfc hc

/-- C10 counterexample: a backtick pair whose content spans a newline IS
converted to a code span — the character class of the inline-code regex
admits newlines — so the delimiters are consumed, not left verbatim: the
output contains a code tag and no backtick at all. -/
theorem C10_counterexample :
    formatExplanation (some "`a\nb`") = "<p><code class=\"inline-code\">a<br>b</code></p>" ∧
    ((formatExplanation (some "`a\nb`")).data.all (fun c => c != btick)) = true :=
  ⟨rfl, rfl⟩

/-- C10 (amended): the bold and italic regexes never match across a line
break — any content they capture is newline-free, so a bold or italic pair
separated by a newline is left verbatim (shown on concrete inputs) — but an
inline-code backtick pair is converted even when its content spans a
newline. -/
theorem C10_span_newline_amended :
    (∀ (l content rest : List Char),
        findBoldClose l = some (content, rest) → '\n' ∉ content) ∧
    (∀ (prev : Char) (l content rest : List Char),
        findItalClose prev l = some (content, rest) → '\n' ∉ content) ∧
    formatExplanation (some "**a\nb**") = "<p>**a<br>b**</p>" ∧
    formatExplanation (some "*a\nb*") = "<p>*a<br>b*</p>" :=
  ⟨fun l content rest h => findBoldClose_no_newline l content rest h,
   fun prev l content rest h => findItalClose_no_newline l prev content rest h,
   rfl, rfl⟩

/-- C10 witness: concrete bold and italic matches capture newline-free
content. -/
theorem C10_span_newline_witness :
    ('\n' ∉ (['a'] : List Char)) ∧ ('\n' ∉ (['b'] : List Char)) :=
  ⟨C10_span_newline_amended.1 "a**x".data ['a'] ['x'] rfl,
   C10_span_newline_amended.2.1 'x' "b*y".data ['b'] ['y'] rfl⟩

end AICodeEditor
